import Mathlib

/-!
Shallow embedding of the reactive data pipeline of `app.py` (a Shiny EDA
tool).  The dataframe library's scalar values are modelled by `Cell`
(a rational number, a text value, or a missing value `na`); a pandas
DataFrame is modelled column-major as a list of named, typed columns.
Floating-point numbers are modelled by `ℚ`.  Each server callback of
`app.py` becomes a pure Lean function of the reactive inputs it reads.
-/

/-- A scalar cell of a dataframe: a numeric value, a text value, or a
missing value (`NaN`/`None`). -/
inductive Cell where
  | val (v : ℚ)
  | str (s : String)
  | na
deriving DecidableEq

/-- The dtypes relevant to `app.py`: `select_dtypes(include=['int64','float64'])`
versus `select_dtypes(include=['object','category'])` (the latter modelled as
the single tag `object`). -/
inductive Dtype where
  | int64
  | float64
  | object
deriving DecidableEq

/-- `str(dtype)`, as produced by `data.dtypes.astype(str)`. -/
def Dtype.toStr : Dtype → String
  | .int64 => "int64"
  | .float64 => "float64"
  | .object => "object"

/-- Whether a dtype is in `['int64', 'float64']`. -/
def Dtype.isNumeric : Dtype → Bool
  | .int64 => true
  | .float64 => true
  | .object => false

/-- `pd.isna` on one cell. -/
def Cell.isna : Cell → Bool
  | .na => true
  | _ => false

/-- The numeric content of a cell, when it has one. -/
def Cell.toNum : Cell → Option ℚ
  | .val v => some v
  | _ => none

/-- `Series.between(lo, hi, inclusive='both')` on one cell: `NaN` (and any
non-numeric cell) compares `False`. -/
def Cell.between (cell : Cell) (lo hi : ℚ) : Bool :=
  match cell with
  | .val v => decide (lo ≤ v) && decide (v ≤ hi)
  | _ => false

/-- A named dataframe column with its dtype and its cells (row order). -/
structure Column where
  name : String
  dtype : Dtype
  cells : List Cell
deriving DecidableEq

/-- `Series.nunique()`: the number of distinct non-missing values. -/
def Column.nunique (c : Column) : Nat :=
  ((c.cells.filter fun x => !x.isna).dedup).length

/-- The numeric values of a column, missing values skipped (the list the
`Series.min()`/`Series.max()` reductions inspect). -/
def Column.numValues (c : Column) : List ℚ :=
  c.cells.filterMap Cell.toNum

/-- A dataframe: columns in order.  Row `i` of the frame is the `i`-th cell
of every column. -/
structure DataFrame where
  cols : List Column
deriving DecidableEq

/-- `data.columns` as a list of names. -/
def DataFrame.columns (df : DataFrame) : List String :=
  df.cols.map Column.name

/-- `len(data)`: the row count (length of the first column; all columns of a
well-formed frame have this length). -/
def DataFrame.numRows (df : DataFrame) : Nat :=
  match df.cols with
  | [] => 0
  | c :: _ => c.cells.length

/-- `data.empty`: true when the frame has no rows or no columns. -/
def DataFrame.isEmpty (df : DataFrame) : Bool :=
  df.cols.isEmpty || df.numRows == 0

/-- Column lookup by name (`data[col]` succeeds exactly when
`col in data.columns`). -/
def DataFrame.getCol? (df : DataFrame) (n : String) : Option Column :=
  df.cols.find? fun c => decide (c.name = n)

/-- Total version of `data[col]`, used only under a `col in data.columns`
guard, where it agrees with `getCol?`. -/
def DataFrame.col (df : DataFrame) (n : String) : Column :=
  (df.getCol? n).getD ⟨n, .object, []⟩

/-- Well-formedness of the embedding of a pandas frame: column names are
unique, all columns have the row count many cells, and a column of numeric
dtype holds only numeric or missing cells. -/
def DataFrame.WF (df : DataFrame) : Prop :=
  (df.cols.map Column.name).Nodup ∧
  (∀ c ∈ df.cols, c.cells.length = df.numRows) ∧
  (∀ c ∈ df.cols, c.dtype.isNumeric = true → ∀ x ∈ c.cells, (x.isna || x.toNum.isSome) = true)

instance wfDecidable (df : DataFrame) : Decidable df.WF := by
  unfold DataFrame.WF
  infer_instance

/-! ### Ingestion (`uploaded_data`, app.py lines 85-102) -/

/-- The metadata of an uploaded file, as exposed by `input.file()[0]`. -/
structure FileInfo where
  name : String
  size : Nat
  datapath : String
deriving DecidableEq

/-- `uploaded_data`: returns `none` when no file is supplied; otherwise
checks the declared size against the 15 MB cap (`size / (1024*1024) > 15`)
and returns `none` when it is exceeded; otherwise returns the result of
`pd.read_csv`, here passed in as `parsed` (`none` standing for a parse
failure, whose exception the callback catches and turns into `None`). -/
def uploaded_data (file : Option FileInfo) (parsed : Option DataFrame) : Option DataFrame :=
  match file with
  | none => none
  | some f =>
      if ((f.size : ℚ) / (1024 * 1024) > 15) then none
      else parsed

/-! ### Column classification (app.py lines 104-135) -/

/-- `data.select_dtypes(include=['int64', 'float64']).columns.tolist()`. -/
def DataFrame.numeric_cols (df : DataFrame) : List String :=
  (df.cols.filter fun c => c.dtype.isNumeric).map Column.name

/-- `[col for col in numeric_cols if data[col].nunique() > 8]`
(from `update_num_column_choices`). -/
def DataFrame.continuous_cols (df : DataFrame) : List String :=
  df.numeric_cols.filter fun col => decide (8 < (df.col col).nunique)

/-- `data.select_dtypes(include=['object', 'category']).columns.tolist()`
(from `update_cat_column_choices`). -/
def DataFrame.cat_cols (df : DataFrame) : List String :=
  (df.cols.filter fun c => !c.dtype.isNumeric).map Column.name

/-- `[col for col in numeric_cols if data[col].nunique() <= 8]`. -/
def DataFrame.discrete_numeric_cols (df : DataFrame) : List String :=
  df.numeric_cols.filter fun col => decide ((df.col col).nunique ≤ 8)

/-- `all_cat_cols = cat_cols + discrete_numeric_cols`. -/
def DataFrame.all_cat_cols (df : DataFrame) : List String :=
  df.cat_cols ++ df.discrete_numeric_cols

/-- `[col for col in all_cat_cols if data[col].nunique() <= 8]`. -/
def DataFrame.valid_cat_cols (df : DataFrame) : List String :=
  df.all_cat_cols.filter fun col => decide ((df.col col).nunique ≤ 8)

/-- The `(choices, selected)` state of one `ui.input_select` widget. -/
structure SelectChoices where
  choices : List String
  selected : Option String
deriving DecidableEq

/-- `ui.update_select`: when an explicit `selected` argument is given it
becomes the selection; when none is given the widget falls back to the
first choice (empty selection when there are no choices). -/
def updateSelect (choices : List String) (sel : Option String) : SelectChoices :=
  match sel with
  | some s => ⟨choices, some s⟩
  | none => ⟨choices, choices.head?⟩

/-- The three numeric-column widgets written by `update_num_column_choices`. -/
structure NumSelections where
  num_column : SelectChoices
  scatter_x : SelectChoices
  scatter_y : SelectChoices
deriving DecidableEq

/-- `update_num_column_choices`: on a file event with a present, non-empty
dataset, computes `continuous_cols`; when non-empty, sets the choices of
`num_column`, `scatter_x`, `scatter_y` to it, selecting the first entry
(second entry for `scatter_y` when it exists, else the first); when empty,
empties all three choice lists.  No dataset, or an empty one, leaves the
widgets untouched. -/
def update_num_column_choices (data : Option DataFrame) (old : NumSelections) : NumSelections :=
  match data with
  | none => old
  | some df =>
      if df.isEmpty then old
      else
        match df.continuous_cols with
        | [] => ⟨updateSelect [] none, updateSelect [] none, updateSelect [] none⟩
        | c0 :: rest =>
            ⟨updateSelect (c0 :: rest) (some c0),
             updateSelect (c0 :: rest) (some c0),
             updateSelect (c0 :: rest) (some (match rest with | [] => c0 | c1 :: _ => c1))⟩

/-- The two categorical widgets written by `update_cat_column_choices`. -/
structure CatSelections where
  cat_column : SelectChoices
  scatter_color : SelectChoices
deriving DecidableEq

/-- `update_cat_column_choices`: on a file event with a present, non-empty
dataset, computes `valid_cat_cols`; when non-empty, sets `cat_column`'s
choices to it selecting the first entry, and `scatter_color`'s choices to
`["None"] + valid_cat_cols` selecting `"None"`; when empty, empties
`cat_column`'s choices and resets `scatter_color` to the lone `"None"`. -/
def update_cat_column_choices (data : Option DataFrame) (old : CatSelections) : CatSelections :=
  match data with
  | none => old
  | some df =>
      if df.isEmpty then old
      else
        match df.valid_cat_cols with
        | [] => ⟨updateSelect [] none, updateSelect ["None"] none⟩
        | v0 :: rest =>
            ⟨updateSelect (v0 :: rest) (some v0),
             updateSelect ("None" :: v0 :: rest) (some "None")⟩

/-! ### Range slider reset (`update_slider_range`, app.py lines 137-151) -/

/-- Smallest element of a list of rationals, `none` on the empty list (the
`NaN` that `Series.min()` yields when every value is missing). -/
def listMin : List ℚ → Option ℚ
  | [] => none
  | x :: xs =>
      match listMin xs with
      | none => some x
      | some m => some (min x m)

/-- Largest element of a list of rationals, `none` on the empty list. -/
def listMax : List ℚ → Option ℚ
  | [] => none
  | x :: xs =>
      match listMax xs with
      | none => some x
      | some m => some (max x m)

/-- `float(data[col].min())` as an option: `none` when the reduction gives
`NaN` (all values missing). -/
def DataFrame.colMin (df : DataFrame) (n : String) : Option ℚ :=
  listMin (df.col n).numValues

/-- `float(data[col].max())` as an option. -/
def DataFrame.colMax (df : DataFrame) (n : String) : Option ℚ :=
  listMax (df.col n).numValues

/-- The `(min, max, value)` state of the `range_filter` slider. -/
structure SliderState where
  lo : ℚ
  hi : ℚ
  value : ℚ × ℚ
deriving DecidableEq

/-- `update_slider_range`: when a dataset is present and the selected column
exists, resets the slider to `[min(col), max(col)]`; when either extremum is
`NaN` (column entirely missing) it falls back to `[0, 100]`, and so does the
`except` branch, reached when `float()` cannot convert the reduction of a
non-numeric column.  Otherwise the slider is left untouched. -/
def update_slider_range (data : Option DataFrame) (selected_col : String)
    (old : SliderState) : SliderState :=
  match data with
  | none => old
  | some df =>
      if selected_col ∈ df.columns then
        if (df.col selected_col).dtype.isNumeric then
          match df.colMin selected_col, df.colMax selected_col with
          | some lo, some hi => ⟨lo, hi, (lo, hi)⟩
          | _, _ => ⟨0, 100, (0, 100)⟩
        else ⟨0, 100, (0, 100)⟩
      else old

/-! ### Range filter (`filtered_data`, app.py lines 153-166) -/

/-- Boolean-mask row selection `data[mask]`, on one cell list: keep the
entries whose mask bit is `true`. -/
def maskSelect (mask : List Bool) (l : List Cell) : List Cell :=
  (l.zip mask).filterMap fun p => if p.2 then some p.1 else none

/-- Boolean-mask row selection on a column. -/
def Column.applyMask (c : Column) (mask : List Bool) : Column :=
  ⟨c.name, c.dtype, maskSelect mask c.cells⟩

/-- `data[data[selected_col].between(lo, hi, inclusive='both')]`: every
column restricted to the rows where the selected column's value lies in
`[lo, hi]`. -/
def DataFrame.filterBetween (df : DataFrame) (n : String) (lo hi : ℚ) : DataFrame :=
  ⟨df.cols.map fun c => c.applyMask ((df.col n).cells.map fun x => x.between lo hi)⟩

/-- The body of `filtered_data`'s `try` block: `range_vals[0]` and
`range_vals[1]` raise `IndexError` when the slider tuple has fewer than two
entries; otherwise the boolean-mask filter is computed. -/
def tryFilter (df : DataFrame) (n : String) (range_vals : List ℚ) : Except String DataFrame :=
  match range_vals with
  | lo :: hi :: _ => .ok (df.filterBetween n lo hi)
  | _ => .error "IndexError: list index out of range"

/-- `filtered_data`: identity (`data` returned unchanged, `None` staying
`None`) when the dataset is absent, no column is selected, or the selected
column is not among the dataset's columns; otherwise the between-filter,
with any exception caught and the unfiltered dataset returned instead. -/
def filtered_data (data : Option DataFrame) (selected_col : Option String)
    (range_vals : List ℚ) : Option DataFrame :=
  match data with
  | none => none
  | some df =>
      match selected_col with
      | none => some df
      | some col =>
          if col ∈ df.columns then
            match tryFilter df col range_vals with
            | .ok r => some r
            | .error _ => some df
          else some df

/-! ### Missing-values report (`missing_values`, app.py lines 210-230) -/

/-- Round a rational to the nearest integer, ties to the even integer
(the IEEE-754 / numpy `round` rule that `Series.round` follows). -/
def roundHalfEven (x : ℚ) : ℤ :=
  if x - ⌊x⌋ < 1 / 2 then ⌊x⌋
  else if 1 / 2 < x - ⌊x⌋ then ⌊x⌋ + 1
  else if ⌊x⌋ % 2 = 0 then ⌊x⌋ else ⌊x⌋ + 1

/-- `Series.round(2)` on one value. -/
def round2 (x : ℚ) : ℚ :=
  (roundHalfEven (x * 100) : ℚ) / 100

/-- One row of the missing-values table of `app.py`. -/
structure MissingRow where
  column : String
  dataType : String
  missingValues : Nat
  missingPct : ℚ
  completeValues : Nat
  completePct : ℚ
deriving DecidableEq

/-- The row of the missing-values table for one column of a frame with
`n` rows: `isna().sum()`, `isna().sum()/len*100` rounded to 2 decimals,
`notna().sum()`, `notna().sum()/len*100` rounded to 2 decimals. -/
def missingRowOf (n : Nat) (c : Column) : MissingRow :=
  { column := c.name
    dataType := c.dtype.toStr
    missingValues := c.cells.countP Cell.isna
    missingPct := round2 ((c.cells.countP Cell.isna : ℚ) / n * 100)
    completeValues := c.cells.countP fun x => !x.isna
    completePct := round2 (((c.cells.countP fun x => !x.isna) : ℚ) / n * 100) }

/-- `missing_values`: absent when no dataset is present, else one row per
column of the missing/complete statistics table. -/
def missing_values (data : Option DataFrame) : Option (List MissingRow) :=
  match data with
  | none => none
  | some df => some (df.cols.map (missingRowOf df.numRows))

/-! ### Scatter plot (`scatterplot`, app.py lines 296-337) -/

/-- The rendered scatter chart, reduced to its data content: each series is
an optional legend label (the category cell) with its `(x, y)` point list;
the uncolored chart is the single unlabeled series of all point pairs. -/
structure ScatterChart where
  series : List (Option Cell × List (Cell × Cell))
  xLabel : String
  yLabel : String
deriving DecidableEq

/-- `scatterplot`: `None` when the dataset is absent or either axis column
is unselected or not among the dataset's columns.  With the `"None"`
sentinel or a color column that is not among the columns, the single-color
scatter of all `(x, y)` pairs; otherwise one colored series per distinct
non-missing value of the color column (`dropna().unique()` order), each
holding the `(x, y)` pairs of the rows whose color cell equals that value
(`data[data[color_col] == category]`). -/
def scatterplot (data : Option DataFrame) (x_col y_col : Option String)
    (color_col : String) : Option ScatterChart :=
  match data, x_col, y_col with
  | some df, some x, some y =>
      if x ∈ df.columns ∧ y ∈ df.columns then
        if color_col = "None" ∨ color_col ∉ df.columns then
          some ⟨[(none, (df.col x).cells.zip (df.col y).cells)], x, y⟩
        else
          let cc := df.col color_col
          let categories := (cc.cells.filter fun v => !v.isna).dedup
          some ⟨categories.map fun cat =>
              (some cat,
               (maskSelect (cc.cells.map fun v => v == cat) (df.col x).cells).zip
                 (maskSelect (cc.cells.map fun v => v == cat) (df.col y).cells)),
            x, y⟩
      else none
  | _, _, _ => none

/-! ### Specification-side predicates and concrete sample data -/

/-- The specification's description of a retained row: the selected column's
cell holds a (non-missing) numeric value `v` with `lo ≤ v ≤ hi`, both
endpoints inclusive. -/
def keepCell (cell : Cell) (lo hi : ℚ) : Prop :=
  ∃ v : ℚ, cell = Cell.val v ∧ lo ≤ v ∧ v ≤ hi

instance keepCellDecidable (cell : Cell) (lo hi : ℚ) : Decidable (keepCell cell lo hi) :=
  match cell with
  | .val v =>
      decidable_of_iff (lo ≤ v ∧ v ≤ hi)
        ⟨fun h => ⟨v, rfl, h⟩, fun ⟨w, hw, h⟩ => by cases hw; exact h⟩
  | .str s => isFalse (fun ⟨w, hw, _⟩ => by cases hw)
  | .na => isFalse (fun ⟨w, hw, _⟩ => by cases hw)

/-- The 4-row sample frame of the specification's scenario: column `a`
numeric with one missing value, column `b` text with 3 distinct values,
column `n` numeric with all 4 values distinct. -/
def demoDF : DataFrame :=
  ⟨[⟨"a", .float64, [.val 1, .val 2, .val 3, .na]⟩,
    ⟨"b", .object, [.str "x", .str "y", .str "x", .str "z"]⟩,
    ⟨"n", .float64, [.val 10, .val 20, .val 30, .val 40]⟩]⟩

/-- Column `a` of the sample frame. -/
def demoColA : Column := ⟨"a", .float64, [.val 1, .val 2, .val 3, .na]⟩

/-- A sample parsed frame for the ingestion theorems. -/
def demoUpload : FileInfo := ⟨"data.csv", 20 * 1024 * 1024, "/tmp/data.csv"⟩

/-! ### Basic lemmas about column lookup -/

theorem find?_name_eq {cs : List Column} {c : Column}
    (hnd : (cs.map Column.name).Nodup) (hc : c ∈ cs) :
    cs.find? (fun d => decide (d.name = c.name)) = some c := by
  induction cs with
  | nil => cases hc
  | cons a t ih =>
      simp only [List.map_cons, List.nodup_cons] at hnd
      rcases List.mem_cons.mp hc with h | h
      · subst h
        simp [List.find?]
      · have hne : ¬ a.name = c.name := fun he => hnd.1 (he ▸ List.mem_map_of_mem Column.name h)
        rw [List.find?_cons_of_neg _ (by simpa using hne)]
        exact ih hnd.2 h

theorem getCol?_eq_of_mem {df : DataFrame} {c : Column}
    (hwf : df.WF) (hc : c ∈ df.cols) : df.getCol? c.name = some c :=
  find?_name_eq hwf.1 hc

theorem col_eq_of_mem {df : DataFrame} {c : Column}
    (hwf : df.WF) (hc : c ∈ df.cols) : df.col c.name = c := by
  rw [DataFrame.col, getCol?_eq_of_mem hwf hc]
  rfl

theorem mem_columns_of_mem {df : DataFrame} {c : Column} (hc : c ∈ df.cols) :
    c.name ∈ df.columns :=
  List.mem_map_of_mem Column.name hc

theorem name_inj_of_wf {df : DataFrame} {c d : Column}
    (hwf : df.WF) (hc : c ∈ df.cols) (hd : d ∈ df.cols) (h : c.name = d.name) : c = d :=
  List.inj_on_of_nodup_map hwf.1 hc hd h

/-! ### Lemmas about boolean-mask selection -/

theorem maskSelect_nil (m : List Bool) : maskSelect m [] = [] := by
  simp [maskSelect]

theorem maskSelect_nil_mask (l : List Cell) : maskSelect [] l = [] := by
  simp [maskSelect]

theorem maskSelect_cons (b : Bool) (m : List Bool) (a : Cell) (l : List Cell) :
    maskSelect (b :: m) (a :: l) =
      if b then a :: maskSelect m l else maskSelect m l := by
  cases b <;> simp [maskSelect, List.filterMap_cons]

theorem maskSelect_sublist (m : List Bool) (l : List Cell) :
    (maskSelect m l).Sublist l := by
  induction l generalizing m with
  | nil => simp [maskSelect_nil]
  | cons a t ih =>
      cases m with
      | nil => simp [maskSelect_nil_mask]
      | cons b mt =>
          rw [maskSelect_cons]
          cases b with
          | false => exact (ih mt).cons a
          | true => simpa using (ih mt).cons₂ a

theorem maskSelect_map_eq_filter (f : Cell → Bool) :
    ∀ (d c : List Cell),
      maskSelect (c.map f) d = ((d.zip c).filter fun p => f p.2).map Prod.fst := by
  intro d
  induction d with
  | nil => intro c; simp [maskSelect_nil]
  | cons a t ih =>
      intro c
      cases c with
      | nil => simp [maskSelect_nil_mask]
      | cons b s =>
          rw [List.map_cons, maskSelect_cons]
          cases hb : f b <;> simp [hb, ih s]

theorem maskSelect_map_self (f : Cell → Bool) (l : List Cell)
    (h : ∀ x ∈ l, f x = true) : maskSelect (l.map f) l = l := by
  induction l with
  | nil => simp [maskSelect_nil]
  | cons a t ih =>
      rw [List.map_cons, maskSelect_cons, h a (List.mem_cons_self a t),
        ih fun x hx => h x (List.mem_cons_of_mem a hx)]
      simp

theorem maskSelect_between_idem (lo hi : ℚ) :
    ∀ cc dc : List Cell,
      maskSelect
          ((maskSelect (cc.map fun x => x.between lo hi) cc).map fun x => x.between lo hi)
          (maskSelect (cc.map fun x => x.between lo hi) dc)
        = maskSelect (cc.map fun x => x.between lo hi) dc := by
  intro cc
  induction cc with
  | nil => intro dc; simp [maskSelect_nil_mask]
  | cons x cs ih =>
      intro dc
      cases dc with
      | nil => simp [maskSelect_nil]
      | cons d ds =>
          cases hx : x.between lo hi with
          | false => simpa [List.map_cons, hx, maskSelect_cons] using ih ds
          | true => simp [List.map_cons, hx, maskSelect_cons, ih ds]

/-! ### Structure of the filtered frame -/

theorem filterBetween_cols (df : DataFrame) (n : String) (lo hi : ℚ) :
    (df.filterBetween n lo hi).cols =
      df.cols.map fun d =>
        ⟨d.name, d.dtype, maskSelect ((df.col n).cells.map fun x => x.between lo hi) d.cells⟩ :=
  rfl

theorem filterBetween_columns (df : DataFrame) (n : String) (lo hi : ℚ) :
    (df.filterBetween n lo hi).columns = df.columns := by
  simp [DataFrame.filterBetween, DataFrame.columns, Column.applyMask, List.map_map,
    Function.comp]

theorem getCol?_filterBetween (df : DataFrame) (n m : String) (lo hi : ℚ) :
    (df.filterBetween n lo hi).getCol? m =
      (df.getCol? m).map
        fun c => c.applyMask ((df.col n).cells.map fun x => x.between lo hi) := by
  simp only [DataFrame.filterBetween, DataFrame.getCol?, List.find?_map]
  rfl

/-! ### Claim C3: the 15 MB ingestion cap -/

theorem size_cap_iff (s : Nat) :
    ((s : ℚ) / (1024 * 1024) > 15) ↔ 15 * 1024 * 1024 < s := by
  have h : ((15 * 1024 * 1024 : ℕ) : ℚ) = 15 * (1024 * 1024) := by norm_num
  rw [gt_iff_lt, lt_div_iff₀ (by norm_num : (0:ℚ) < 1024 * 1024), ← h, Nat.cast_lt]

/-- Claim C3: ingestion yields no dataset when no file is supplied, when the
declared size strictly exceeds 15 MB (15·1024·1024 bytes), or when CSV
parsing fails; a file of size at most 15 MB is not rejected on size grounds
(ingestion returns whatever the parse produced). -/
theorem uploaded_data_size_cap (f : FileInfo) (parsed : Option DataFrame) :
    uploaded_data none parsed = none ∧
    (15 * 1024 * 1024 < f.size → uploaded_data (some f) parsed = none) ∧
    uploaded_data (some f) none = none ∧
    (f.size ≤ 15 * 1024 * 1024 → uploaded_data (some f) parsed = parsed) := by
  refine ⟨rfl, fun hbig => ?_, ?_, fun hsmall => ?_⟩
  · simp only [uploaded_data, if_pos ((size_cap_iff f.size).mpr hbig)]
  · simp only [uploaded_data]
    split <;> rfl
  · have : ¬ ((f.size : ℚ) / (1024 * 1024) > 15) := by
      rw [size_cap_iff]
      omega
    simp only [uploaded_data, if_neg this]

/-- Claim C3, witnessed at a concrete 20 MB upload and at a concrete 10 MB
upload carrying the sample frame. -/
theorem uploaded_data_size_cap_witness :
    (15 * 1024 * 1024 < demoUpload.size ∧
      uploaded_data (some demoUpload) (some demoDF) = none) ∧
    (10 * 1024 * 1024 ≤ 15 * 1024 * 1024 ∧
      uploaded_data (some ⟨"ok.csv", 10 * 1024 * 1024, "/tmp/ok.csv"⟩) (some demoDF) =
        some demoDF) :=
  ⟨⟨by norm_num [demoUpload],
    (uploaded_data_size_cap demoUpload (some demoDF)).2.1 (by norm_num [demoUpload])⟩,
   ⟨by norm_num,
    (uploaded_data_size_cap ⟨"ok.csv", 10 * 1024 * 1024, "/tmp/ok.csv"⟩ (some demoDF)).2.2.2
      (by norm_num)⟩⟩

/-! ### Claim C7: the filter's identity fallbacks -/

/-- Claim C7: the range filter is the identity whenever its preconditions
fail or its computation fails: an absent dataset stays absent; when no
numeric column is selected, or the selected column is not among the
dataset's columns, the dataset is returned unchanged; and when the `try`
body raises, the unfiltered dataset is returned instead of propagating. -/
theorem filtered_data_fallback (df : DataFrame) (col : String) (rv : List ℚ) (e : String) :
    filtered_data none (some col) rv = none ∧
    filtered_data none none rv = none ∧
    filtered_data (some df) none rv = some df ∧
    (col ∉ df.columns → filtered_data (some df) (some col) rv = some df) ∧
    (tryFilter df col rv = .error e → filtered_data (some df) (some col) rv = some df) := by
  refine ⟨rfl, rfl, rfl, fun hmem => ?_, fun herr => ?_⟩
  · simp only [filtered_data, if_neg hmem]
  · by_cases hmem : col ∈ df.columns
    · simp only [filtered_data, if_pos hmem, herr]
    · simp only [filtered_data, if_neg hmem]

/-- Claim C7, witnessed on the sample frame: a stale column name and an
ill-formed slider tuple (whose indexing raises `IndexError`) both return the
input unchanged. -/
theorem filtered_data_fallback_witness :
    ("zzz" ∉ demoDF.columns ∧ filtered_data (some demoDF) (some "zzz") [0, 10] = some demoDF) ∧
    (tryFilter demoDF "a" [] = .error "IndexError: list index out of range" ∧
      filtered_data (some demoDF) (some "a") [] = some demoDF) :=
  ⟨⟨by decide,
    (filtered_data_fallback demoDF "zzz" [0, 10] "").2.2.2.1 (by decide)⟩,
   ⟨rfl,
    (filtered_data_fallback demoDF "a" [] "IndexError: list index out of range").2.2.2.2 rfl⟩⟩

/-! ### Claim C1: the column classification partition -/

theorem mem_numeric_cols {df : DataFrame} {c : Column}
    (hc : c ∈ df.cols) (hnum : c.dtype.isNumeric = true) :
    c.name ∈ df.numeric_cols :=
  List.mem_map_of_mem Column.name (List.mem_filter.mpr ⟨hc, hnum⟩)

theorem of_mem_numeric_cols {df : DataFrame} {c : Column}
    (hwf : df.WF) (hc : c ∈ df.cols) (h : c.name ∈ df.numeric_cols) :
    c.dtype.isNumeric = true := by
  rcases List.mem_map.mp h with ⟨d, hd, hdn⟩
  rcases List.mem_filter.mp hd with ⟨hdmem, hdnum⟩
  rwa [name_inj_of_wf hwf hc hdmem hdn.symm]

/-- Claim C1: classification of a column `c` of a present, non-empty,
well-formed dataset: numeric with more than 8 distinct non-missing values
puts `c` in the continuous choice list and keeps it out of the categorical
one; at most 8 distinct non-missing values (numeric or not) puts `c` in the
categorical choice list and keeps it out of the continuous one; non-numeric
with more than 8 distinct non-missing values puts `c` in neither list. -/
theorem classification_partition (df : DataFrame) (c : Column)
    (hwf : df.WF) (_hrows : 0 < df.numRows) (hc : c ∈ df.cols) :
    (c.dtype.isNumeric = true → 8 < c.nunique →
      c.name ∈ df.continuous_cols ∧ c.name ∉ df.valid_cat_cols) ∧
    (c.nunique ≤ 8 →
      c.name ∈ df.valid_cat_cols ∧ c.name ∉ df.continuous_cols) ∧
    (c.dtype.isNumeric = false → 8 < c.nunique →
      c.name ∉ df.continuous_cols ∧ c.name ∉ df.valid_cat_cols) := by
  have hcol : df.col c.name = c := col_eq_of_mem hwf hc
  refine ⟨fun hnum hbig => ⟨?_, ?_⟩, fun hsmall => ⟨?_, ?_⟩, fun hobj hbig => ⟨?_, ?_⟩⟩
  · exact List.mem_filter.mpr ⟨mem_numeric_cols hc hnum, by simp [hcol, hbig]⟩
  · intro hmem
    rcases List.mem_filter.mp hmem with ⟨-, hle⟩
    rw [hcol] at hle
    simp at hle
    omega
  · apply List.mem_filter.mpr
    refine ⟨?_, by simp [hcol, hsmall]⟩
    cases hdt : c.dtype.isNumeric with
    | true =>
        exact List.mem_append.mpr (Or.inr
          (List.mem_filter.mpr ⟨mem_numeric_cols hc hdt, by simp [hcol, hsmall]⟩))
    | false =>
        exact List.mem_append.mpr (Or.inl
          (List.mem_map_of_mem Column.name (List.mem_filter.mpr ⟨hc, by simp [hdt]⟩)))
  · intro hmem
    rcases List.mem_filter.mp hmem with ⟨-, hgt⟩
    rw [hcol] at hgt
    simp at hgt
    omega
  · intro hmem
    rcases List.mem_filter.mp hmem with ⟨hnum, -⟩
    rw [of_mem_numeric_cols hwf hc hnum] at hobj
    cases hobj
  · intro hmem
    rcases List.mem_filter.mp hmem with ⟨-, hle⟩
    rw [hcol] at hle
    simp at hle
    omega

/-- Claim C1, witnessed on the sample frame: column `a` (numeric, 3 distinct
non-missing values) is categorical only, and column `b` (text, 3 distinct
values) is categorical only. -/
theorem classification_partition_witness :
    demoDF.WF ∧ 0 < demoDF.numRows ∧ demoColA ∈ demoDF.cols ∧ demoColA.nunique ≤ 8 ∧
    demoColA.name ∈ demoDF.valid_cat_cols ∧ demoColA.name ∉ demoDF.continuous_cols :=
  ⟨by decide, by decide, by decide, by decide,
   ((classification_partition demoDF demoColA (by decide) (by decide) (by decide)).2.1
      (by decide)).1,
   ((classification_partition demoDF demoColA (by decide) (by decide) (by decide)).2.1
      (by decide)).2⟩

/-! ### Claim C2: exactness of the range filter -/

theorem filtered_data_some (df : DataFrame) (col : String) (lo hi : ℚ) (rest : List ℚ)
    (h : col ∈ df.columns) :
    filtered_data (some df) (some col) (lo :: hi :: rest) =
      some (df.filterBetween col lo hi) := by
  simp only [filtered_data, if_pos h, tryFilter]

theorem between_eq_decide (cell : Cell) (lo hi : ℚ) :
    cell.between lo hi = decide (keepCell cell lo hi) := by
  cases cell with
  | val v =>
      by_cases h : lo ≤ v ∧ v ≤ hi
      · simp [Cell.between, h.1, h.2, decide_eq_true_eq, keepCell]
      · have hk : ¬ keepCell (Cell.val v) lo hi := by
          rintro ⟨w, hw, h1, h2⟩
          cases hw
          exact h ⟨h1, h2⟩
        rw [decide_eq_false hk]
        simp only [Cell.between, Bool.and_eq_false_iff, decide_eq_false_iff_not, not_le]
        by_cases hl : lo ≤ v
        · exact Or.inr (by push_neg at h; exact h hl)
        · exact Or.inl (not_le.mp hl)
  | str s =>
      rw [decide_eq_false (fun ⟨w, hw, _⟩ => by cases hw)]
      rfl
  | na =>
      rw [decide_eq_false (fun ⟨w, hw, _⟩ => by cases hw)]
      rfl

/-- Claim C2: on a present, well-formed dataset, a selected numeric column
that exists in it, and a bound `[lo, hi]`, the filter returns exactly the
subsequence of rows whose cell in the selected column holds a non-missing
value `v` with `lo ≤ v ≤ hi` (both endpoints inclusive, missing values
excluded), every column being restricted to those rows. -/
theorem filtered_data_exact (df : DataFrame) (c : Column) (lo hi : ℚ)
    (hwf : df.WF) (hc : c ∈ df.cols) (_hnum : c.dtype.isNumeric = true) :
    filtered_data (some df) (some c.name) [lo, hi] =
      some ⟨df.cols.map fun d =>
        ⟨d.name, d.dtype,
          ((d.cells.zip c.cells).filter fun p => decide (keepCell p.2 lo hi)).map
            Prod.fst⟩⟩ := by
  rw [filtered_data_some df c.name lo hi [] (mem_columns_of_mem hc)]
  congr 1
  simp only [DataFrame.filterBetween, col_eq_of_mem hwf hc]
  congr 1
  apply List.map_congr_left
  intro d _
  simp only [Column.applyMask]
  rw [show (fun x => Cell.between x lo hi) = fun x => decide (keepCell x lo hi) from
      funext fun x => between_eq_decide x lo hi,
    maskSelect_map_eq_filter]

/-- Claim C2, witnessed on the sample frame with bound `[1, 2]` on column
`a`: exactly the two rows with `a = 1` and `a = 2` survive (both endpoints
retained, the missing-`a` row dropped), in every column. -/
theorem filtered_data_exact_witness :
    demoDF.WF ∧ demoColA ∈ demoDF.cols ∧ demoColA.dtype.isNumeric = true ∧
    filtered_data (some demoDF) (some demoColA.name) [1, 2] =
      some ⟨demoDF.cols.map fun d =>
        ⟨d.name, d.dtype,
          ((d.cells.zip demoColA.cells).filter fun p => decide (keepCell p.2 1 2)).map
            Prod.fst⟩⟩ :=
  ⟨by decide, by decide, by decide,
   filtered_data_exact demoDF demoColA 1 2 (by decide) (by decide) (by decide)⟩

/-! ### Claim C9: filtering derives a new view with the same columns -/

theorem DataFrame.eq_of_cols {a b : DataFrame} (h : a.cols = b.cols) : a = b := by
  cases a
  cases b
  cases h
  rfl

/-- Claim C9: filtering is a pure derivation (the embedding's input frame is
untouched by construction): the filtered view is obtained by one boolean row
mask applied uniformly to every column, so it has exactly the original's
columns, names, dtypes and order, and each column's cells form a sublist
(subsequence in original order) of the original's. -/
theorem filtered_data_pure (df : DataFrame) (col : String) (lo hi : ℚ)
    (hcol : col ∈ df.columns) :
    ∃ mask : List Bool,
      filtered_data (some df) (some col) [lo, hi] =
        some ⟨df.cols.map fun d => ⟨d.name, d.dtype, maskSelect mask d.cells⟩⟩ ∧
      (DataFrame.mk (df.cols.map fun d => ⟨d.name, d.dtype, maskSelect mask d.cells⟩)).columns
        = df.columns ∧
      ∀ l : List Cell, (maskSelect mask l).Sublist l := by
  refine ⟨(df.col col).cells.map fun x => x.between lo hi, ?_, ?_, fun l => maskSelect_sublist _ l⟩
  · rw [filtered_data_some df col lo hi [] hcol]
    rfl
  · simp [DataFrame.columns, List.map_map, Function.comp]

/-- Claim C9, witnessed on the sample frame, column `a`, bound `[1, 2]`. -/
theorem filtered_data_pure_witness :
    "a" ∈ demoDF.columns ∧
    ∃ mask : List Bool,
      filtered_data (some demoDF) (some "a") [1, 2] =
        some ⟨demoDF.cols.map fun d => ⟨d.name, d.dtype, maskSelect mask d.cells⟩⟩ ∧
      (DataFrame.mk (demoDF.cols.map fun d => ⟨d.name, d.dtype, maskSelect mask d.cells⟩)).columns
        = demoDF.columns ∧
      ∀ l : List Cell, (maskSelect mask l).Sublist l :=
  ⟨by decide, filtered_data_pure demoDF "a" 1 2 (by decide)⟩

/-! ### Claim C5: the range filter is idempotent -/

theorem getCol?_some_of_mem_columns {df : DataFrame} {n : String}
    (h : n ∈ df.columns) :
    ∃ c, df.getCol? n = some c ∧ c ∈ df.cols ∧ c.name = n := by
  rcases List.mem_map.mp h with ⟨c, hc, rfl⟩
  have hs : (df.cols.find? fun d => decide (d.name = c.name)).isSome :=
    List.find?_isSome.mpr ⟨c, hc, by simp⟩
  obtain ⟨d, hd⟩ := Option.isSome_iff_exists.mp hs
  exact ⟨d, hd, List.mem_of_find?_eq_some hd, by simpa using List.find?_some hd⟩

/-- Claim C5: the range filter is idempotent — applying `filtered_data` to
its own output, with the same selected column and the same bound, returns
the output unchanged.  This holds in every case of the filter (absent data,
absent or invalid selection, the exception fallback, and the filtering
branch proper). -/
theorem filtered_data_idem (data : Option DataFrame) (col : Option String) (rv : List ℚ) :
    filtered_data (filtered_data data col rv) col rv = filtered_data data col rv := by
  cases data with
  | none => rfl
  | some df =>
      cases col with
      | none => rfl
      | some n =>
          by_cases hn : n ∈ df.columns
          · match rv with
            | [] => simp [filtered_data, tryFilter, hn]
            | [lo] => simp [filtered_data, tryFilter, hn]
            | lo :: hi :: rest =>
                rw [filtered_data_some df n lo hi rest hn]
                have hn' : n ∈ (df.filterBetween n lo hi).columns := by
                  rw [filterBetween_columns]
                  exact hn
                rw [filtered_data_some _ n lo hi rest hn']
                congr 1
                obtain ⟨c₀, hc₀, -, -⟩ := getCol?_some_of_mem_columns hn
                have hm : df.col n = c₀ := by
                  rw [DataFrame.col, hc₀]
                  rfl
                have hcol' : (df.filterBetween n lo hi).col n
                    = c₀.applyMask (c₀.cells.map fun x => x.between lo hi) := by
                  rw [DataFrame.col, getCol?_filterBetween, hc₀, hm]
                  rfl
                apply DataFrame.eq_of_cols
                rw [filterBetween_cols, filterBetween_cols df n lo hi, List.map_map]
                apply List.map_congr_left
                intro d _
                simp only [Function.comp, hcol', hm, Column.applyMask]
                exact congrArg (fun l => Column.mk d.name d.dtype l)
                  (maskSelect_between_idem lo hi c₀.cells d.cells)
          · simp [filtered_data, hn]

/-! ### Claim C6: filtering with the slider's reset bound keeps every
non-missing row -/

theorem listMin_le {l : List ℚ} {m : ℚ} (hm : listMin l = some m) :
    ∀ x ∈ l, m ≤ x := by
  induction l generalizing m with
  | nil => cases hm
  | cons a t ih =>
      intro x hx
      rw [listMin] at hm
      cases ht : listMin t with
      | none =>
          rw [ht] at hm
          cases hm
          rcases List.mem_cons.mp hx with rfl | hxt
          · exact le_refl x
          · cases t with
            | nil => cases hxt
            | cons b s => rw [listMin] at ht; cases h : listMin s <;> rw [h] at ht <;> cases ht
      | some mt =>
          rw [ht] at hm
          cases hm
          rcases List.mem_cons.mp hx with rfl | hxt
          · exact min_le_left _ _
          · exact le_trans (min_le_right _ _) (ih ht x hxt)

theorem le_listMax {l : List ℚ} {m : ℚ} (hm : listMax l = some m) :
    ∀ x ∈ l, x ≤ m := by
  induction l generalizing m with
  | nil => cases hm
  | cons a t ih =>
      intro x hx
      rw [listMax] at hm
      cases ht : listMax t with
      | none =>
          rw [ht] at hm
          cases hm
          rcases List.mem_cons.mp hx with rfl | hxt
          · exact le_refl x
          · cases t with
            | nil => cases hxt
            | cons b s => rw [listMax] at ht; cases h : listMax s <;> rw [h] at ht <;> cases ht
      | some mt =>
          rw [ht] at hm
          cases hm
          rcases List.mem_cons.mp hx with rfl | hxt
          · exact le_max_left _ _
          · exact le_trans (ih ht x hxt) (le_max_right _ _)

/-- Claim C6: for a well-formed present dataset and a valid selected numeric
column `c` whose extrema are defined, selecting `c` resets the slider to
`[min(c), max(c)]`, and filtering with that bound keeps exactly the rows
whose `c`-cell is non-missing (no shrinkage beyond missing-value
exclusion). -/
theorem filter_full_range (df : DataFrame) (c : Column) (lo hi : ℚ) (old : SliderState)
    (hwf : df.WF) (hc : c ∈ df.cols) (hnum : c.dtype.isNumeric = true)
    (hlo : df.colMin c.name = some lo) (hhi : df.colMax c.name = some hi) :
    update_slider_range (some df) c.name old = ⟨lo, hi, (lo, hi)⟩ ∧
    filtered_data (some df) (some c.name) [lo, hi] =
      some ⟨df.cols.map fun d =>
        ⟨d.name, d.dtype, maskSelect (c.cells.map fun x => !x.isna) d.cells⟩⟩ := by
  have hcol : df.col c.name = c := col_eq_of_mem hwf hc
  constructor
  · simp only [update_slider_range, if_pos (mem_columns_of_mem hc), hcol, hnum, hlo, hhi,
      if_true]
  · rw [filtered_data_some df c.name lo hi [] (mem_columns_of_mem hc)]
    congr 1
    apply DataFrame.eq_of_cols
    rw [filterBetween_cols, hcol]
    have hmask : (c.cells.map fun x => x.between lo hi) = c.cells.map fun x => !x.isna := by
      apply List.map_congr_left
      intro x hx
      cases x with
      | na => rfl
      | str s =>
          have hbad := hwf.2.2 c hc hnum (Cell.str s) hx
          simp [Cell.isna, Cell.toNum] at hbad
      | val v =>
          have hv : v ∈ c.numValues := List.mem_filterMap.mpr ⟨Cell.val v, hx, rfl⟩
          have h1 : lo ≤ v := listMin_le (by rwa [DataFrame.colMin, hcol] at hlo) v hv
          have h2 : v ≤ hi := le_listMax (by rwa [DataFrame.colMax, hcol] at hhi) v hv
          simp [Cell.between, Cell.isna, h1, h2]
    rw [hmask]

/-- Claim C6, witnessed on the sample frame, column `a` with extrema
`[1, 3]`: the three non-missing rows survive, the missing one is dropped. -/
theorem filter_full_range_witness :
    demoDF.WF ∧ demoColA ∈ demoDF.cols ∧ demoColA.dtype.isNumeric = true ∧
    demoDF.colMin demoColA.name = some 1 ∧ demoDF.colMax demoColA.name = some 3 ∧
    update_slider_range (some demoDF) demoColA.name ⟨0, 100, (0, 100)⟩ =
      ⟨1, 3, (1, 3)⟩ ∧
    filtered_data (some demoDF) (some demoColA.name) [1, 3] =
      some ⟨demoDF.cols.map fun d =>
        ⟨d.name, d.dtype, maskSelect (demoColA.cells.map fun x => !x.isna) d.cells⟩⟩ :=
  ⟨by decide, by decide, by decide, by decide, by decide,
   (filter_full_range demoDF demoColA 1 3 ⟨0, 100, (0, 100)⟩
      (by decide) (by decide) (by decide) (by decide) (by decide)).1,
   (filter_full_range demoDF demoColA 1 3 ⟨0, 100, (0, 100)⟩
      (by decide) (by decide) (by decide) (by decide) (by decide)).2⟩

/-! ### Claim C4: the missing-values report is consistent -/

theorem roundHalfEven_abs_le (x : ℚ) : |(roundHalfEven x : ℚ) - x| ≤ 1 / 2 := by
  have h0 : (⌊x⌋ : ℚ) ≤ x := Int.floor_le x
  have h1 : x < ⌊x⌋ + 1 := Int.lt_floor_add_one x
  rw [roundHalfEven]
  by_cases hlt : x - ⌊x⌋ < 1 / 2
  · rw [if_pos hlt, abs_sub_comm, abs_of_nonneg (by linarith)]
    linarith
  · rw [if_neg hlt]
    by_cases hgt : 1 / 2 < x - ⌊x⌋
    · rw [if_pos hgt]
      push_cast
      rw [abs_of_nonneg (by linarith)]
      linarith
    · rw [if_neg hgt]
      have heq : x - ⌊x⌋ = 1 / 2 := le_antisymm (not_lt.mp hgt) (not_lt.mp hlt)
      by_cases he : ⌊x⌋ % 2 = 0
      · rw [if_pos he, abs_sub_comm, abs_of_nonneg (by linarith)]
        linarith
      · rw [if_neg he]
        push_cast
        rw [abs_of_nonneg (by linarith)]
        linarith

theorem round2_abs_le (x : ℚ) : |round2 x - x| ≤ 1 / 200 := by
  have h := roundHalfEven_abs_le (x * 100)
  have heq : round2 x - x = ((roundHalfEven (x * 100) : ℚ) - x * 100) / 100 := by
    rw [round2]
    ring
  rw [heq, abs_div, abs_of_pos (by norm_num : (0:ℚ) < 100), div_le_iff₀ (by norm_num)]
  linarith

theorem countP_isna_total (l : List Cell) :
    l.countP Cell.isna + l.countP (fun x => !x.isna) = l.length := by
  induction l with
  | nil => rfl
  | cons x t ih =>
      cases hx : x.isna <;>
        simp [List.countP_cons, hx, ← ih] <;> omega

/-- Claim C4: in the missing-values report of a present, well-formed dataset
with at least one row, every row's missing and complete percentages sum to
100 up to the error of rounding each to 2 decimals (at most 1/100), and its
missing and complete counts sum exactly to the dataset's row count. -/
theorem missing_values_consistent (df : DataFrame) (L : List MissingRow) (row : MissingRow)
    (hwf : df.WF) (hrows : 0 < df.numRows)
    (hL : missing_values (some df) = some L) (hrow : row ∈ L) :
    |row.missingPct + row.completePct - 100| ≤ 1 / 100 ∧
    row.missingValues + row.completeValues = df.numRows := by
  have hL' : L = df.cols.map (missingRowOf df.numRows) := by
    have : some L = some (df.cols.map (missingRowOf df.numRows)) := hL.symm
    exact Option.some.inj this
  subst hL'
  rcases List.mem_map.mp hrow with ⟨c, hc, rfl⟩
  have hlen : c.cells.length = df.numRows := hwf.2.1 c hc
  have hcount : c.cells.countP Cell.isna + c.cells.countP (fun x => !x.isna) = df.numRows := by
    rw [countP_isna_total, hlen]
  refine ⟨?_, hcount⟩
  set m : ℕ := c.cells.countP Cell.isna with hm
  set k : ℕ := c.cells.countP (fun x => !x.isna) with hk
  have hn0 : ((df.numRows : ℚ)) ≠ 0 := by
    exact_mod_cast Nat.pos_iff_ne_zero.mp hrows
  have hsum : (m : ℚ) / df.numRows * 100 + (k : ℚ) / df.numRows * 100 = 100 := by
    have hmk : ((m + k : ℕ) : ℚ) = (df.numRows : ℚ) := by exact_mod_cast congrArg Nat.cast hcount
    push_cast at hmk
    field_simp
    linarith
  have h1 := round2_abs_le ((m : ℚ) / df.numRows * 100)
  have h2 := round2_abs_le ((k : ℚ) / df.numRows * 100)
  rw [abs_le] at h1 h2 ⊢
  constructor <;>
    simp only [missingRowOf] <;>
    [skip; skip] <;>
    linarith [h1.1, h1.2, h2.1, h2.2]

/-- Claim C4, witnessed on the sample frame: the report row of column `a`
has Missing = 1, Complete = 3 (summing to the 4 rows), and percentages
25 and 75. -/
theorem missing_values_consistent_witness :
    demoDF.WF ∧ 0 < demoDF.numRows ∧
    missing_values (some demoDF) = some (demoDF.cols.map (missingRowOf demoDF.numRows)) ∧
    missingRowOf demoDF.numRows demoColA ∈ demoDF.cols.map (missingRowOf demoDF.numRows) ∧
    |(missingRowOf demoDF.numRows demoColA).missingPct +
        (missingRowOf demoDF.numRows demoColA).completePct - 100| ≤ 1 / 100 ∧
    (missingRowOf demoDF.numRows demoColA).missingValues +
        (missingRowOf demoDF.numRows demoColA).completeValues = demoDF.numRows :=
  ⟨by decide, by decide, rfl,
   List.mem_map_of_mem (missingRowOf demoDF.numRows) (by decide),
   (missing_values_consistent demoDF (demoDF.cols.map (missingRowOf demoDF.numRows))
      (missingRowOf demoDF.numRows demoColA) (by decide) (by decide) rfl
      (List.mem_map_of_mem (missingRowOf demoDF.numRows) (by decide))).1,
   (missing_values_consistent demoDF (demoDF.cols.map (missingRowOf demoDF.numRows))
      (missingRowOf demoDF.numRows demoColA) (by decide) (by decide) rfl
      (List.mem_map_of_mem (missingRowOf demoDF.numRows) (by decide))).2⟩

/-! ### Claim C8: default selections after (re)classification -/

/-- Claim C8: on classifying a present, non-empty dataset, the numeric and
scatter-x selections default to the first continuous column (the choice
lists becoming empty, with empty selection, when there is none), scatter-y
defaults to the second continuous column when one exists and otherwise the
first, the categorical selection defaults to the first categorical column,
and scatter-color defaults to the sentinel `"None"` at the head of its
choice list. -/
theorem update_choices_defaults (df : DataFrame) (oldN : NumSelections)
    (oldC : CatSelections) (hne : df.isEmpty = false) :
    (update_num_column_choices (some df) oldN).num_column =
      ⟨df.continuous_cols, df.continuous_cols.head?⟩ ∧
    (update_num_column_choices (some df) oldN).scatter_x =
      ⟨df.continuous_cols, df.continuous_cols.head?⟩ ∧
    (update_num_column_choices (some df) oldN).scatter_y =
      ⟨df.continuous_cols, (df.continuous_cols[1]?).orElse fun _ => df.continuous_cols.head?⟩ ∧
    (update_cat_column_choices (some df) oldC).cat_column =
      ⟨df.valid_cat_cols, df.valid_cat_cols.head?⟩ ∧
    (update_cat_column_choices (some df) oldC).scatter_color =
      ⟨"None" :: df.valid_cat_cols, some "None"⟩ := by
  refine ⟨?_, ?_, ?_, ?_, ?_⟩ <;>
    simp only [update_num_column_choices, update_cat_column_choices, hne, Bool.false_eq_true,
      if_false]
  · cases hcc : df.continuous_cols <;> simp [updateSelect]
  · cases hcc : df.continuous_cols <;> simp [updateSelect]
  · cases hcc : df.continuous_cols with
    | nil => simp [updateSelect]
    | cons c0 rest => cases rest <;> simp [updateSelect, Option.orElse]
  · cases hvc : df.valid_cat_cols <;> simp [updateSelect]
  · cases hvc : df.valid_cat_cols <;> simp [updateSelect]

/-- Claim C8, witnessed on the sample frame (no continuous column, so the
numeric selections become empty; categorical defaults to `a`; scatter-color
defaults to `"None"`). -/
theorem update_choices_defaults_witness :
    demoDF.isEmpty = false ∧
    (update_num_column_choices (some demoDF)
        ⟨⟨[], none⟩, ⟨[], none⟩, ⟨[], none⟩⟩).num_column =
      ⟨demoDF.continuous_cols, demoDF.continuous_cols.head?⟩ ∧
    (update_cat_column_choices (some demoDF) ⟨⟨[], none⟩, ⟨["None"], some "None"⟩⟩).scatter_color =
      ⟨"None" :: demoDF.valid_cat_cols, some "None"⟩ :=
  ⟨by decide,
   (update_choices_defaults demoDF ⟨⟨[], none⟩, ⟨[], none⟩, ⟨[], none⟩⟩
      ⟨⟨[], none⟩, ⟨["None"], some "None"⟩⟩ (by decide)).1,
   (update_choices_defaults demoDF ⟨⟨[], none⟩, ⟨[], none⟩, ⟨[], none⟩⟩
      ⟨⟨[], none⟩, ⟨["None"], some "None"⟩⟩ (by decide)).2.2.2.2⟩

/-! ### Claim C10: the scatter plot's color fallback -/

/-- Claim C10: with a present (filtered) dataset and valid scatter-x and
scatter-y columns, a scatter-color selection that is the `"None"` sentinel
or that names a column missing from the data still yields a chart — the
single-series uncolored scatter of all `(x, y)` pairs — and in fact a chart
is always produced; only an absent dataset, an unselected axis, or an axis
column missing from the data yields no chart. -/
theorem scatterplot_color_fallback (df : DataFrame) (x y color xbad : String)
    (hx : x ∈ df.columns) (hy : y ∈ df.columns) (hxbad : xbad ∉ df.columns) :
    ((color = "None" ∨ color ∉ df.columns) →
      scatterplot (some df) (some x) (some y) color =
        some ⟨[(none, (df.col x).cells.zip (df.col y).cells)], x, y⟩) ∧
    (scatterplot (some df) (some x) (some y) color).isSome = true ∧
    (∀ c2 : String, scatterplot none (some x) (some y) c2 = none) ∧
    scatterplot (some df) none (some y) color = none ∧
    scatterplot (some df) (some x) none color = none ∧
    scatterplot (some df) (some xbad) (some y) color = none ∧
    scatterplot (some df) (some x) (some xbad) color = none := by
  refine ⟨fun hcolor => ?_, ?_, fun c2 => rfl, rfl, rfl, ?_, ?_⟩
  · simp only [scatterplot, if_pos (And.intro hx hy), if_pos hcolor]
  · by_cases hcolor : color = "None" ∨ color ∉ df.columns
    · simp only [scatterplot, if_pos (And.intro hx hy), if_pos hcolor, Option.isSome_some]
    · simp only [scatterplot, if_pos (And.intro hx hy), if_neg hcolor, Option.isSome_some]
  · simp only [scatterplot, if_neg (fun h : xbad ∈ df.columns ∧ y ∈ df.columns => hxbad h.1)]
  · simp only [scatterplot, if_neg (fun h : x ∈ df.columns ∧ xbad ∈ df.columns => hxbad h.2)]

/-- Claim C10, witnessed on the sample frame with `x = "a"`, `y = "n"`: both
the `"None"` sentinel and a stale color column name produce the uncolored
single-series chart. -/
theorem scatterplot_color_fallback_witness :
    ("a" ∈ demoDF.columns ∧ "n" ∈ demoDF.columns ∧ "zzz" ∉ demoDF.columns) ∧
    scatterplot (some demoDF) (some "a") (some "n") "None" =
      some ⟨[(none, (demoDF.col "a").cells.zip (demoDF.col "n").cells)], "a", "n"⟩ ∧
    scatterplot (some demoDF) (some "a") (some "n") "gone" =
      some ⟨[(none, (demoDF.col "a").cells.zip (demoDF.col "n").cells)], "a", "n"⟩ ∧
    scatterplot (some demoDF) (some "zzz") (some "n") "None" = none :=
  ⟨⟨by decide, by decide, by decide⟩,
   (scatterplot_color_fallback demoDF "a" "n" "None" "zzz" (by decide) (by decide)
      (by decide)).1 (Or.inl rfl),
   (scatterplot_color_fallback demoDF "a" "n" "gone" "zzz" (by decide) (by decide)
      (by decide)).1 (Or.inr (by decide)),
   (scatterplot_color_fallback demoDF "a" "n" "None" "zzz" (by decide) (by decide)
      (by decide)).2.2.2.2.2.1⟩
